import Mathlib

/-!
Shallow embedding of the secret-retrieval core of a Go client SDK for a
remote secret-management service ("secrets" resource).

The embedded code consists of:
* the `Secret` / `SecretField` data model,
* `Server.Secret` (fetch a secret by id and resolve file attachments),
* `Secret.Field` (field lookup by name or slug),
* `Server.SecretNameToID` (name search and disambiguation),
* the `MultipleSecretsFoundError` distinguished error,
* a faithful model of Go's `url.Values.Encode` / `url.QueryEscape`
  for the query string the name search builds.

The HTTP transport (`accessResource`) and the JSON codec
(`json.Unmarshal`) are external collaborators of the code: they are
modelled as function-valued components of the `Server` record, so all
theorems quantify over their behaviour.  Raw response bytes are modelled
as `String` (Go converts them with `string(data)`); where byte-level
precision matters (URL escaping) we encode strings to their UTF-8 bytes
explicitly.
-/

/-- Raw response bytes of the resource accessor, interpreted as text
(the Go code only ever uses them via `string(data)` or `json.Unmarshal`). -/
abbrev Bytes := String

/-- `resource` is the HTTP URL path component for the secrets resource. -/
def resource : String := "secrets"

/-- `SecretField` is an item (field) in the secret. -/
structure SecretField where
  ItemID : Int
  FieldID : Int
  FileAttachmentID : Int
  FieldDescription : String
  FieldName : String
  Filename : String
  ItemValue : String
  Slug : String
  IsFile : Bool
  IsNotes : Bool
  IsPassword : Bool
deriving DecidableEq, Repr

/-- `Secret` represents a secret from the Secret Server.
The wire key `Items` maps to `Fields`. -/
structure Secret where
  Name : String
  FolderID : Int
  ID : Int
  SiteID : Int
  SecretTemplateID : Int
  SecretPolicyID : Int
  Active : Bool
  CheckedOut : Bool
  CheckOutEnabled : Bool
  Fields : List SecretField
deriving DecidableEq, Repr

/-- The record shape the name search decodes (declared locally inside
`SecretNameToID` in the source). -/
structure SearchRecord where
  ID : Int
  Name : String
  SecretTemplateID : Int
  SecretTemplateName : String
deriving DecidableEq, Repr

/-- Envelope of the search response: `{ Records: [...] }`. -/
structure SearchResponse where
  Records : List SearchRecord
deriving DecidableEq, Repr

/-- Go `error` values produced or propagated by this code:
either a plain `fmt.Errorf` message (also covering arbitrary errors
coming out of the accessor, identified by their message), or the
distinguished `MultipleSecretsFoundError` carrying the matched IDs and
the searched name. -/
inductive GoError where
  | errorf (msg : String)
  | multipleSecretsFound (IDs : List Int) (searchedName : String)
deriving DecidableEq, Repr

/-- `Error()` rendering of a `GoError`, as used by `fmt.Errorf("%s", err)`.
`MultipleSecretsFoundError.Error` is
`"multiple (%d) secrets found with name %s"`. -/
def GoError.message : GoError → String
  | .errorf m => m
  | .multipleSecretsFound ids name =>
      "multiple (" ++ toString ids.length ++ ") secrets found with name " ++ name

/-- The resource-accessor capability:
`access(method, resource, pathSuffix, body) -> bytes | error`. -/
abbrev Accessor := String → String → String → Option Bytes → Except GoError Bytes

/-- A `Server`, carrying its external collaborators: the transport
(`accessResource`) and the JSON decoding primitive specialised to the two
shapes this code unmarshals into (`json.Unmarshal` returns an error whose
message is interpolated into the wrapping `fmt.Errorf`). -/
structure Server where
  accessResource : Accessor
  unmarshalSecret : Bytes → Except String Secret
  unmarshalSearch : Bytes → Except String SearchResponse

/-! ### Go's `url.QueryEscape` and `url.Values.Encode` -/

/-- UTF-8 encoding of one character, as a list of byte values. -/
def charUtf8 (c : Char) : List Nat :=
  let n := c.toNat
  if n < 0x80 then [n]
  else if n < 0x800 then
    [0xC0 ||| (n >>> 6), 0x80 ||| (n &&& 0x3F)]
  else if n < 0x10000 then
    [0xE0 ||| (n >>> 12), 0x80 ||| ((n >>> 6) &&& 0x3F), 0x80 ||| (n &&& 0x3F)]
  else
    [0xF0 ||| (n >>> 18), 0x80 ||| ((n >>> 12) &&& 0x3F),
     0x80 ||| ((n >>> 6) &&& 0x3F), 0x80 ||| (n &&& 0x3F)]

/-- The UTF-8 bytes of a string (Go strings are byte sequences). -/
def utf8Bytes (s : String) : List Nat :=
  s.data.flatMap charUtf8

/-- Go `shouldEscape(c, encodeQueryComponent)`: alphanumeric bytes and
`-`, `_`, `.`, `~` stay unescaped; every other byte is escaped. -/
def shouldEscape (b : Nat) : Bool :=
  !((0x41 ≤ b && b ≤ 0x5A) || (0x61 ≤ b && b ≤ 0x7A) ||
    (0x30 ≤ b && b ≤ 0x39) || b == 0x2D || b == 0x5F || b == 0x2E || b == 0x7E)

/-- Upper-case hexadecimal digit for a value `< 16`. -/
def upperHexDigit (n : Nat) : Char :=
  if n < 10 then Char.ofNat (48 + n) else Char.ofNat (55 + n)

/-- How `url.QueryEscape` renders one byte: space becomes `+`, bytes that
must be escaped become `%XX` with upper-case hex, the rest pass through. -/
def escapeByte (b : Nat) : String :=
  if b == 32 then "+"
  else if shouldEscape b then
    String.mk ['%', upperHexDigit (b / 16), upperHexDigit (b % 16)]
  else String.singleton (Char.ofNat b)

/-- Go `url.QueryEscape`: escape every UTF-8 byte of the string. -/
def queryEscape (s : String) : String :=
  String.join ((utf8Bytes s).map escapeByte)

/-- Byte-wise lexicographic order on strings, the order `sort.Strings`
uses when `url.Values.Encode` sorts the keys. -/
def goBytesLt : List Nat → List Nat → Bool
  | [], [] => false
  | [], _ :: _ => true
  | _ :: _, [] => false
  | a :: as, b :: bs =>
    if a < b then true else if b < a then false else goBytesLt as bs

/-- String comparison used for key sorting. -/
def goStringLt (a b : String) : Bool :=
  goBytesLt (utf8Bytes a) (utf8Bytes b)

/-- Insert one key/values pair into a key-sorted association list. -/
def insertByKey (p : String × List String) :
    List (String × List String) → List (String × List String)
  | [] => [p]
  | q :: rest =>
    if goStringLt q.1 p.1 then q :: insertByKey p rest else p :: q :: rest

/-- Sort an association list by key (Go's `Values` map is unordered and
`Encode` visits the keys in sorted order). -/
def sortByKey : List (String × List String) → List (String × List String)
  | [] => []
  | p :: rest => insertByKey p (sortByKey rest)

/-- Go `url.Values.Encode`: keys in sorted order, each key/value pair rendered
as `QueryEscape(k)=QueryEscape(v)`, pairs joined with `&`. -/
def urlValuesEncode (v : List (String × List String)) : String :=
  String.intercalate "&"
    ((sortByKey v).flatMap fun kv =>
      kv.2.map fun x => queryEscape kv.1 ++ "=" ++ queryEscape x)

/-! ### The embedded operations (src/server/secret.go) -/

/-- The attachment-resolution loop of `Server.Secret`: for every field in
order, when `FileAttachmentID ≠ 0`, GET `{id}/fields/{slug}` and replace
the field's `ItemValue` with the raw response text; the first accessor
failure aborts with that error. -/
def substituteFields (s : Server) (id : Int) :
    List SecretField → Except GoError (List SecretField)
  | [] => .ok []
  | f :: rest =>
    if f.FileAttachmentID ≠ 0 then
      match s.accessResource "GET" resource (toString id ++ "/fields/" ++ f.Slug) none with
      | .ok data =>
        match substituteFields s id rest with
        | .ok rest' => .ok ({ f with ItemValue := data } :: rest')
        | .error e => .error e
      | .error e => .error e
    else
      match substituteFields s id rest with
      | .ok rest' => .ok (f :: rest')
      | .error e => .error e

/-- `Server.Secret`: GET `secrets/{id}`, unmarshal the response, then
resolve every file attachment.  An accessor failure on the primary GET is
propagated unchanged; an unmarshal failure is wrapped as
`"parsing response from /secrets/{id}: ..."`. -/
def Server.Secret (s : Server) (id : Int) : Except GoError Secret :=
  match s.accessResource "GET" resource (toString id) none with
  | .ok data =>
    match s.unmarshalSecret data with
    | .error msg =>
        .error (.errorf ("parsing response from /" ++ resource ++ "/" ++ toString id ++ ": " ++ msg))
    | .ok secret =>
      match substituteFields s id secret.Fields with
      | .ok fields => .ok { secret with Fields := fields }
      | .error e => .error e
  | .error e => .error e

/-- The `for _, field := range s.Fields` loop of `Secret.Field`. -/
def fieldLoop (fieldName : String) : List SecretField → String × Bool
  | [] => ("", false)
  | field :: rest =>
    if fieldName == field.FieldName || fieldName == field.Slug then
      (field.ItemValue, true)
    else fieldLoop fieldName rest

/-- `Secret.Field`: first field (in order) whose `FieldName` or `Slug`
equals `fieldName` wins; not found is `("", false)`. -/
def Secret.Field (s : Secret) (fieldName : String) : String × Bool :=
  fieldLoop fieldName s.Fields

/-- The query the name search builds:
`url.Values{"filter.searchFieldSlug": {"name"}, "filter.searchText": {name},
"filter.doNotCalculateTotal": {"true"}}.Encode()`. -/
def searchFilter (name : String) : String :=
  urlValuesEncode
    [("filter.searchFieldSlug", ["name"]),
     ("filter.searchText", [name]),
     ("filter.doNotCalculateTotal", ["true"])]

/-- `Server.SecretNameToID`: GET `secrets?{filter}`, unmarshal
`{Records: [...]}`, then disambiguate: more than one record yields
`MultipleSecretsFoundError` with all matched IDs in response order, zero
records a plain "no secrets found" error, exactly one its ID. -/
def Server.SecretNameToID (s : Server) (name : String) : Except GoError Int :=
  match s.accessResource "GET" resource ("?" ++ searchFilter name) none with
  | .ok data =>
    match s.unmarshalSearch data with
    | .error msg => .error (.errorf ("unmarshaling response: " ++ msg))
    | .ok u =>
      match u.Records with
      | [] => .error (.errorf ("no secrets found with name '" ++ name ++ "'"))
      | [r] => .ok r.ID
      | r₁ :: r₂ :: rest =>
          .error (.multipleSecretsFound ((r₁ :: r₂ :: rest).map (·.ID)) name)
  | .error e =>
      .error (.errorf ("accessing resource " ++ resource ++ ": " ++ e.message))

/-! ### The embedded operations of src/unnamed/part_000

That file declares the same `Secret` / `SecretField` shapes
character-for-character, so the entity types above are reused; its
`Server.Secret` and `Secret.Field` bodies are translated afresh below so
the two versions can be compared. -/

namespace Part000

/-- The attachment-resolution loop of part_000's `Server.Secret`. -/
def substituteFields (s : Server) (id : Int) :
    List SecretField → Except GoError (List SecretField)
  | [] => .ok []
  | f :: rest =>
    if f.FileAttachmentID ≠ 0 then
      match s.accessResource "GET" resource (toString id ++ "/fields/" ++ f.Slug) none with
      | .ok data =>
        match substituteFields s id rest with
        | .ok rest' => .ok ({ f with ItemValue := data } :: rest')
        | .error e => .error e
      | .error e => .error e
    else
      match substituteFields s id rest with
      | .ok rest' => .ok (f :: rest')
      | .error e => .error e

/-- part_000's `Server.Secret`. -/
def serverSecret (s : Server) (id : Int) : Except GoError Secret :=
  match s.accessResource "GET" resource (toString id) none with
  | .ok data =>
    match s.unmarshalSecret data with
    | .error msg =>
        .error (.errorf ("parsing response from /" ++ resource ++ "/" ++ toString id ++ ": " ++ msg))
    | .ok secret =>
      match substituteFields s id secret.Fields with
      | .ok fields => .ok { secret with Fields := fields }
      | .error e => .error e
  | .error e => .error e

/-- The `for _, field := range s.Fields` loop of part_000's `Secret.Field`. -/
def fieldLoop (fieldName : String) : List SecretField → String × Bool
  | [] => ("", false)
  | field :: rest =>
    if fieldName == field.FieldName || fieldName == field.Slug then
      (field.ItemValue, true)
    else fieldLoop fieldName rest

/-- part_000's `Secret.Field`. -/
def secretField (s : Secret) (fieldName : String) : String × Bool :=
  fieldLoop fieldName s.Fields

end Part000

/-! ### Properties of the attachment-resolution loop -/

/-- When the loop succeeds, every field keeps its `Slug` and
`FileAttachmentID`; fields without an attachment are returned untouched,
and for fields with an attachment the accessor answered `ok` at
`{id}/fields/{slug}` with exactly the returned `ItemValue`. -/
theorem substituteFields_ok_spec (s : Server) (id : Int) :
    ∀ (l l' : List SecretField), substituteFields s id l = .ok l' →
      l'.length = l.length ∧
      ∀ i (hi : i < l.length) (hi' : i < l'.length),
        (l'.get ⟨i, hi'⟩).Slug = (l.get ⟨i, hi⟩).Slug ∧
        (l'.get ⟨i, hi'⟩).FileAttachmentID = (l.get ⟨i, hi⟩).FileAttachmentID ∧
        ((l.get ⟨i, hi⟩).FileAttachmentID = 0 → l'.get ⟨i, hi'⟩ = l.get ⟨i, hi⟩) ∧
        ((l.get ⟨i, hi⟩).FileAttachmentID ≠ 0 →
          s.accessResource "GET" resource
              (toString id ++ "/fields/" ++ (l.get ⟨i, hi⟩).Slug) none
            = .ok (l'.get ⟨i, hi'⟩).ItemValue) := by
  intro l
  induction l with
  | nil =>
    intro l' h
    simp only [substituteFields] at h
    cases h
    exact ⟨rfl, fun i hi => absurd hi (by simp)⟩
  | cons f rest ih =>
    intro l' h
    simp only [substituteFields] at h
    by_cases hf : f.FileAttachmentID ≠ 0
    · rw [if_pos hf] at h
      cases hacc : s.accessResource "GET" resource (toString id ++ "/fields/" ++ f.Slug) none with
      | error e => rw [hacc] at h; cases h
      | ok data =>
        rw [hacc] at h
        cases hrest : substituteFields s id rest with
        | error e => rw [hrest] at h; cases h
        | ok rest' =>
          rw [hrest] at h
          cases h
          obtain ⟨hlen, hspec⟩ := ih rest' hrest
          refine ⟨by simp [hlen], ?_⟩
          intro i hi hi'
          cases i with
          | zero => exact ⟨rfl, rfl, fun h0 => absurd h0 hf, fun _ => hacc⟩
          | succ i =>
            exact hspec i (by simpa using hi) (by simpa using hi')
    · rw [if_neg hf] at h
      push_neg at hf
      cases hrest : substituteFields s id rest with
      | error e => rw [hrest] at h; cases h
      | ok rest' =>
        rw [hrest] at h
        cases h
        obtain ⟨hlen, hspec⟩ := ih rest' hrest
        refine ⟨by simp [hlen], ?_⟩
        intro i hi hi'
        cases i with
        | zero => exact ⟨rfl, rfl, fun _ => rfl, fun hne => absurd hf hne⟩
        | succ i =>
          exact hspec i (by simpa using hi) (by simpa using hi')

/-- When the first attachment fetch that fails is at index `i` (every
earlier attachment fetch succeeded), the loop aborts with that error. -/
theorem substituteFields_first_error (s : Server) (id : Int) :
    ∀ (l : List SecretField) (i : Nat) (hi : i < l.length) (e : GoError),
      (l.get ⟨i, hi⟩).FileAttachmentID ≠ 0 →
      s.accessResource "GET" resource
          (toString id ++ "/fields/" ++ (l.get ⟨i, hi⟩).Slug) none = .error e →
      (∀ j (hj : j < l.length), j < i →
        (l.get ⟨j, hj⟩).FileAttachmentID ≠ 0 →
        ∃ d, s.accessResource "GET" resource
            (toString id ++ "/fields/" ++ (l.get ⟨j, hj⟩).Slug) none = .ok d) →
      substituteFields s id l = .error e := by
  intro l
  induction l with
  | nil => intro i hi; exact absurd hi (by simp)
  | cons f rest ih =>
    intro i hi e hatt herr hfirst
    cases i with
    | zero =>
      have hatt' : f.FileAttachmentID ≠ 0 := hatt
      have herr' : s.accessResource "GET" resource
          (toString id ++ "/fields/" ++ f.Slug) none = .error e := herr
      simp only [substituteFields]
      rw [if_pos hatt', herr']
    | succ i =>
      have hi' : i < rest.length := by simpa using hi
      have hatt' : (rest.get ⟨i, hi'⟩).FileAttachmentID ≠ 0 := hatt
      have herr' : s.accessResource "GET" resource
          (toString id ++ "/fields/" ++ (rest.get ⟨i, hi'⟩).Slug) none = .error e := herr
      have hrec := ih i hi' e hatt' herr' (fun j hj hji hjatt =>
        hfirst (j + 1) (by simpa using hj) (by omega) hjatt)
      simp only [substituteFields]
      by_cases hf : f.FileAttachmentID ≠ 0
      · obtain ⟨d, hd⟩ := hfirst 0 (by simp) (by omega) hf
        have hd' : s.accessResource "GET" resource
            (toString id ++ "/fields/" ++ f.Slug) none = .ok d := hd
        rw [if_pos hf, hd', hrec]
      · rw [if_neg hf, hrec]

/-- The loop consults the accessor only at the attachment paths of the
fields whose `FileAttachmentID` is non-zero: two servers that agree
there run it to the same result. -/
theorem substituteFields_congr (s s₂ : Server) (id : Int) :
    ∀ l : List SecretField,
      (∀ j (hj : j < l.length), (l.get ⟨j, hj⟩).FileAttachmentID ≠ 0 →
        s₂.accessResource "GET" resource
            (toString id ++ "/fields/" ++ (l.get ⟨j, hj⟩).Slug) none
          = s.accessResource "GET" resource
              (toString id ++ "/fields/" ++ (l.get ⟨j, hj⟩).Slug) none) →
      substituteFields s₂ id l = substituteFields s id l := by
  intro l
  induction l with
  | nil => intro _; rfl
  | cons f rest ih =>
    intro hagree
    simp only [substituteFields]
    have hrest := ih (fun j hj hjatt => by
      have := hagree (j + 1) (by simpa using hj) (by simpa using hjatt)
      simpa using this)
    by_cases hf : f.FileAttachmentID ≠ 0
    · have h0 : s₂.accessResource "GET" resource
            (toString id ++ "/fields/" ++ f.Slug) none
          = s.accessResource "GET" resource
              (toString id ++ "/fields/" ++ f.Slug) none :=
        hagree 0 (by simp) hf
      rw [if_pos hf, if_pos hf, h0, hrest]
    · rw [if_neg hf, if_neg hf, hrest]

/-- Inversion of a successful `Server.Secret`: the primary GET answered
`ok`, the bytes unmarshalled, the attachment loop succeeded, and the
result is the decoded secret with the substituted field list. -/
theorem serverSecret_ok_inv (s : Server) (id : Int) (sec : Secret)
    (h : s.Secret id = .ok sec) :
    ∃ data sec₀ fields,
      s.accessResource "GET" resource (toString id) none = .ok data ∧
      s.unmarshalSecret data = .ok sec₀ ∧
      substituteFields s id sec₀.Fields = .ok fields ∧
      sec = { sec₀ with Fields := fields } := by
  unfold Server.Secret at h
  split at h
  · rename_i data hacc
    split at h
    · rename_i msg hdec
      cases h
    · rename_i sec₀ hdec
      split at h
      · rename_i fields hsub
        cases h
        exact ⟨data, sec₀, fields, hacc, hdec, hsub, rfl⟩
      · rename_i e hsub
        cases h
  · rename_i e hacc
    cases h

/-- The field-lookup loop returns the first matching field's value. -/
theorem fieldLoop_first_match (fieldName : String) :
    ∀ (l : List SecretField) (i : Nat) (hi : i < l.length),
      (∀ j (hj : j < l.length), j < i →
        fieldName ≠ (l.get ⟨j, hj⟩).FieldName ∧ fieldName ≠ (l.get ⟨j, hj⟩).Slug) →
      (fieldName = (l.get ⟨i, hi⟩).FieldName ∨ fieldName = (l.get ⟨i, hi⟩).Slug) →
      fieldLoop fieldName l = ((l.get ⟨i, hi⟩).ItemValue, true) := by
  intro l
  induction l with
  | nil => intro i hi; exact absurd hi (by simp)
  | cons f rest ih =>
    intro i hi hprev hmatch
    cases i with
    | zero =>
      have hm : fieldName = f.FieldName ∨ fieldName = f.Slug := hmatch
      simp only [fieldLoop]
      rw [if_pos (by simpa [beq_iff_eq] using hm)]
      rfl
    | succ i =>
      have hi' : i < rest.length := by simpa using hi
      have h0 := hprev 0 (by simp) (by omega)
      have h0' : fieldName ≠ f.FieldName ∧ fieldName ≠ f.Slug := h0
      have hm : fieldName = (rest.get ⟨i, hi'⟩).FieldName ∨
          fieldName = (rest.get ⟨i, hi'⟩).Slug := hmatch
      have hrec := ih i hi' (fun j hj hji =>
        hprev (j + 1) (by simpa using hj) (by omega)) hm
      simp only [fieldLoop]
      rw [if_neg (by simp [beq_iff_eq]; exact ⟨h0'.1, h0'.2⟩)]
      exact hrec

/-- The field-lookup loop returns `("", false)` when nothing matches. -/
theorem fieldLoop_no_match (fieldName : String) :
    ∀ l : List SecretField,
      (∀ i (hi : i < l.length),
        fieldName ≠ (l.get ⟨i, hi⟩).FieldName ∧ fieldName ≠ (l.get ⟨i, hi⟩).Slug) →
      fieldLoop fieldName l = ("", false) := by
  intro l
  induction l with
  | nil => intro _; rfl
  | cons f rest ih =>
    intro hno
    have h0 : fieldName ≠ f.FieldName ∧ fieldName ≠ f.Slug := hno 0 (by simp)
    simp only [fieldLoop]
    rw [if_neg (by simp [beq_iff_eq]; exact ⟨h0.1, h0.2⟩)]
    exact ih (fun i hi => hno (i + 1) (by simpa using hi))

/-- The attachment loops of secret.go and part_000 compute the same
function. -/
theorem part000_substituteFields_eq (s : Server) (id : Int) :
    ∀ l, Part000.substituteFields s id l = substituteFields s id l := by
  intro l
  induction l with
  | nil => rfl
  | cons f rest ih =>
    simp only [Part000.substituteFields, substituteFields, ih]

/-- The lookup loops of secret.go and part_000 compute the same function. -/
theorem part000_fieldLoop_eq (fieldName : String) :
    ∀ l, Part000.fieldLoop fieldName l = fieldLoop fieldName l := by
  intro l
  induction l with
  | nil => rfl
  | cons f rest ih =>
    simp only [Part000.fieldLoop, fieldLoop, ih]

/-! ### The claims -/

/-- C1: for every secret id, if the fetch succeeds, then every field of
the returned `Secret` whose `FileAttachmentID` is non-zero has an
`ItemValue` equal to the raw bytes the accessor returned for GET on path
`{id}/fields/{slug}` (interpreted as text) — no placeholder value is ever
observable by the caller. -/
theorem fetchSecret_attachment_substitution_total
    (s : Server) (id : Int) (sec : Secret)
    (h : s.Secret id = .ok sec) :
    ∀ i (hi : i < sec.Fields.length),
      (sec.Fields.get ⟨i, hi⟩).FileAttachmentID ≠ 0 →
      s.accessResource "GET" resource
          (toString id ++ "/fields/" ++ (sec.Fields.get ⟨i, hi⟩).Slug) none
        = .ok (sec.Fields.get ⟨i, hi⟩).ItemValue := by
  obtain ⟨data, sec₀, fields, hacc, hdec, hsub, hres⟩ := serverSecret_ok_inv s id sec h
  subst hres
  intro i hi hatt
  obtain ⟨hlen, hspec⟩ := substituteFields_ok_spec s id sec₀.Fields fields hsub
  have hi' : i < fields.length := hi
  have hi0 : i < sec₀.Fields.length := by omega
  obtain ⟨hslug, hfid, _, hfetch⟩ := hspec i hi0 hi'
  have goal' : s.accessResource "GET" resource
      (toString id ++ "/fields/" ++ (fields.get ⟨i, hi'⟩).Slug) none
      = .ok (fields.get ⟨i, hi'⟩).ItemValue := by
    rw [hslug]
    exact hfetch (by rw [← hfid]; exact hatt)
  exact goal'

/-- C2: if the accessor fails on the first failing attachment fetch
during the fetch of secret `id`, the whole fetch returns exactly that
accessor error and no `Secret` value — no partially substituted secret
is ever returned. -/
theorem fetchSecret_attachment_error_propagates
    (s : Server) (id : Int) (data : Bytes) (sec₀ : Secret) (i : Nat)
    (hi : i < sec₀.Fields.length) (e : GoError)
    (hacc : s.accessResource "GET" resource (toString id) none = .ok data)
    (hdec : s.unmarshalSecret data = .ok sec₀)
    (hatt : (sec₀.Fields.get ⟨i, hi⟩).FileAttachmentID ≠ 0)
    (herr : s.accessResource "GET" resource
        (toString id ++ "/fields/" ++ (sec₀.Fields.get ⟨i, hi⟩).Slug) none = .error e)
    (hfirst : ∀ j (hj : j < sec₀.Fields.length), j < i →
        (sec₀.Fields.get ⟨j, hj⟩).FileAttachmentID ≠ 0 →
        ∃ d, s.accessResource "GET" resource
            (toString id ++ "/fields/" ++ (sec₀.Fields.get ⟨j, hj⟩).Slug) none = .ok d) :
    s.Secret id = .error e := by
  have hsub := substituteFields_first_error s id sec₀.Fields i hi e hatt herr hfirst
  simp only [Server.Secret, hacc, hdec, hsub]

/-- C3: when the decoded search response holds two or more records, the
name resolution returns the distinguished `MultipleSecretsFoundError`
whose IDs are exactly the ID fields of all records in response order and
whose searched name is the input name. -/
theorem resolveID_multiple_matches
    (s : Server) (name : String) (data : Bytes) (u : SearchResponse)
    (hacc : s.accessResource "GET" resource ("?" ++ searchFilter name) none = .ok data)
    (hdec : s.unmarshalSearch data = .ok u)
    (hlen : 2 ≤ u.Records.length) :
    s.SecretNameToID name
      = .error (.multipleSecretsFound (u.Records.map (·.ID)) name) := by
  rcases hu : u.Records with _ | ⟨r₁, _ | ⟨r₂, rest⟩⟩
  · rw [hu] at hlen; simp at hlen
  · rw [hu] at hlen; simp at hlen
  · simp only [Server.SecretNameToID, hacc, hdec, hu]

/-- C4: when the decoded search response holds exactly one record, the
name resolution returns that record's ID with no error. -/
theorem resolveID_single_match
    (s : Server) (name : String) (data : Bytes) (u : SearchResponse) (r : SearchRecord)
    (hacc : s.accessResource "GET" resource ("?" ++ searchFilter name) none = .ok data)
    (hdec : s.unmarshalSearch data = .ok u)
    (hu : u.Records = [r]) :
    s.SecretNameToID name = .ok r.ID := by
  simp only [Server.SecretNameToID, hacc, hdec, hu]

/-- C5: when the decoded search response holds zero records, the name
resolution returns the plain error "no secrets found with name '<name>'",
and that error is not the distinguished `MultipleSecretsFoundError`. -/
theorem resolveID_no_match
    (s : Server) (name : String) (data : Bytes) (u : SearchResponse)
    (hacc : s.accessResource "GET" resource ("?" ++ searchFilter name) none = .ok data)
    (hdec : s.unmarshalSearch data = .ok u)
    (hu : u.Records = []) :
    s.SecretNameToID name
      = .error (.errorf ("no secrets found with name '" ++ name ++ "'")) ∧
    ∀ (ids : List Int) (nm : String),
      s.SecretNameToID name ≠ .error (.multipleSecretsFound ids nm) := by
  have h1 : s.SecretNameToID name
      = .error (.errorf ("no secrets found with name '" ++ name ++ "'")) := by
    simp only [Server.SecretNameToID, hacc, hdec, hu]
  refine ⟨h1, fun ids nm hcontra => ?_⟩
  rw [h1] at hcontra
  simp at hcontra

/-- C6: `Field` scans the secret's fields in order and returns
`(ItemValue, true)` of the first field whose `FieldName` or `Slug`
equals the argument exactly (case-sensitively); with no match it
returns `("", false)`. -/
theorem secretField_first_match_wins (sec : Secret) (fieldName : String) :
    (∀ i (hi : i < sec.Fields.length),
        (∀ j (hj : j < sec.Fields.length), j < i →
          fieldName ≠ (sec.Fields.get ⟨j, hj⟩).FieldName ∧
          fieldName ≠ (sec.Fields.get ⟨j, hj⟩).Slug) →
        (fieldName = (sec.Fields.get ⟨i, hi⟩).FieldName ∨
          fieldName = (sec.Fields.get ⟨i, hi⟩).Slug) →
        sec.Field fieldName = ((sec.Fields.get ⟨i, hi⟩).ItemValue, true)) ∧
    ((∀ i (hi : i < sec.Fields.length),
        fieldName ≠ (sec.Fields.get ⟨i, hi⟩).FieldName ∧
        fieldName ≠ (sec.Fields.get ⟨i, hi⟩).Slug) →
      sec.Field fieldName = ("", false)) :=
  ⟨fun i hi hprev hm => fieldLoop_first_match fieldName sec.Fields i hi hprev hm,
   fun hno => fieldLoop_no_match fieldName sec.Fields hno⟩

/-- C7: every field of the decoded secret whose `FileAttachmentID` is 0
is returned untouched by the fetch, and the fetch never consults the
accessor for such a field: its outcome depends on the accessor only
through the primary GET and the attachment paths of the non-zero
fields. -/
theorem fetchSecret_frame_no_attachment
    (s : Server) (id : Int) (data : Bytes) (sec₀ sec : Secret)
    (hacc : s.accessResource "GET" resource (toString id) none = .ok data)
    (hdec : s.unmarshalSecret data = .ok sec₀)
    (hres : s.Secret id = .ok sec) :
    (∀ i (hi : i < sec₀.Fields.length) (hi' : i < sec.Fields.length),
        (sec₀.Fields.get ⟨i, hi⟩).FileAttachmentID = 0 →
        sec.Fields.get ⟨i, hi'⟩ = sec₀.Fields.get ⟨i, hi⟩) ∧
    (∀ s₂ : Server,
        s₂.accessResource "GET" resource (toString id) none = .ok data →
        s₂.unmarshalSecret data = .ok sec₀ →
        (∀ j (hj : j < sec₀.Fields.length),
          (sec₀.Fields.get ⟨j, hj⟩).FileAttachmentID ≠ 0 →
          s₂.accessResource "GET" resource
              (toString id ++ "/fields/" ++ (sec₀.Fields.get ⟨j, hj⟩).Slug) none
            = s.accessResource "GET" resource
                (toString id ++ "/fields/" ++ (sec₀.Fields.get ⟨j, hj⟩).Slug) none) →
        s₂.Secret id = s.Secret id) := by
  obtain ⟨data', sec₀', fields, hacc', hdec', hsub, hreseq⟩ := serverSecret_ok_inv s id sec hres
  rw [hacc] at hacc'
  cases hacc'
  rw [hdec] at hdec'
  cases hdec'
  constructor
  · intro i hi hi' h0
    subst hreseq
    obtain ⟨hlen, hspec⟩ := substituteFields_ok_spec s id sec₀.Fields fields hsub
    have hif : i < fields.length := hi'
    obtain ⟨_, _, hkeep, _⟩ := hspec i hi hif
    exact hkeep h0
  · intro s₂ hacc₂ hdec₂ hagree
    have hsub₂ : substituteFields s₂ id sec₀.Fields = substituteFields s id sec₀.Fields :=
      substituteFields_congr s s₂ id sec₀.Fields hagree
    simp only [Server.Secret, hacc, hacc₂, hdec, hdec₂, hsub₂]

/-- C8: when the primary GET succeeds but the bytes do not decode, the
fetch returns the descriptive error naming the resource and the id;
when the primary GET itself fails, the fetch returns the accessor's
error unchanged. -/
theorem fetchSecret_primary_errors (s : Server) (id : Int) :
    (∀ (data : Bytes) (msg : String),
        s.accessResource "GET" resource (toString id) none = .ok data →
        s.unmarshalSecret data = .error msg →
        s.Secret id = .error (.errorf
          ("parsing response from /secrets/" ++ toString id ++ ": " ++ msg))) ∧
    (∀ e : GoError,
        s.accessResource "GET" resource (toString id) none = .error e →
        s.Secret id = .error e) := by
  constructor
  · intro data msg hacc hdec
    simp only [Server.Secret, hacc, hdec]
    rfl
  · intro e hacc
    simp only [Server.Secret, hacc]

/-- C9: the name search issues its GET with a query string that is
exactly the URL-encoding of the three filter parameters — in sorted key
order `filter.doNotCalculateTotal=true`, `filter.searchFieldSlug=name`,
`filter.searchText=<escaped name>` — appended after `?` to the secrets
resource path, and the resolution depends on the accessor only through
that one call. -/
theorem resolveID_query_string (name : String) :
    searchFilter name
      = "filter.doNotCalculateTotal=true&filter.searchFieldSlug=name&filter.searchText="
          ++ queryEscape name ∧
    ∀ s₁ s₂ : Server,
      (∀ d, s₁.unmarshalSearch d = s₂.unmarshalSearch d) →
      s₁.accessResource "GET" resource ("?" ++ searchFilter name) none
        = s₂.accessResource "GET" resource ("?" ++ searchFilter name) none →
      s₁.SecretNameToID name = s₂.SecretNameToID name := by
  constructor
  · rfl
  · intro s₁ s₂ hdec hacc
    simp only [Server.SecretNameToID]
    rw [hacc]
    cases h2 : s₂.accessResource "GET" resource ("?" ++ searchFilter name) none with
    | error e => simp only [h2]
    | ok data => simp only [h2, hdec data]

/-- C10: the secret-fetch and field-lookup operations of
src/unnamed/part_000 are behaviourally equivalent to those of
src/server/secret.go: for every accessor behaviour, id, secret and field
name they return identical results and identical errors. -/
theorem part000_equiv_secretgo :
    (∀ (s : Server) (id : Int), Part000.serverSecret s id = Server.Secret s id) ∧
    (∀ (sec : Secret) (fieldName : String),
      Part000.secretField sec fieldName = Secret.Field sec fieldName) := by
  constructor
  · intro s id
    simp only [Part000.serverSecret, Server.Secret, part000_substituteFields_eq]
  · intro sec fieldName
    exact part000_fieldLoop_eq fieldName sec.Fields

/-! ### Concrete servers and data for evaluating the claims -/

/-- A password field without an attachment. -/
def wPasswordField : SecretField :=
  { ItemID := 1, FieldID := 11, FileAttachmentID := 0, FieldDescription := "",
    FieldName := "password", Filename := "", ItemValue := "p@ss",
    Slug := "password-slug", IsFile := false, IsNotes := false, IsPassword := true }

/-- A file field with attachment 42, holding the dummy placeholder. -/
def wNotesField : SecretField :=
  { ItemID := 2, FieldID := 12, FileAttachmentID := 42, FieldDescription := "",
    FieldName := "notes", Filename := "n.txt", ItemValue := "<placeholder>",
    Slug := "notes-file", IsFile := true, IsNotes := true, IsPassword := false }

/-- The secret as decoded from the primary response. -/
def wSecret : Secret :=
  { Name := "db", FolderID := 1, ID := 7, SiteID := 1, SecretTemplateID := 3,
    SecretPolicyID := 0, Active := true, CheckedOut := false,
    CheckOutEnabled := false, Fields := [wPasswordField, wNotesField] }

/-- The secret after attachment substitution. -/
def wResult : Secret :=
  { wSecret with
    Fields := [wPasswordField, { wNotesField with ItemValue := "hello world" }] }

/-- A server whose primary GET and attachment GET both answer. -/
def wServerOk : Server :=
  { accessResource := fun _ _ path _ =>
      if path == "7" then .ok "SECRET-JSON"
      else if path == "7/fields/notes-file" then .ok "hello world"
      else .error (.errorf "unexpected path"),
    unmarshalSecret := fun d =>
      if d == "SECRET-JSON" then .ok wSecret else .error "invalid character",
    unmarshalSearch := fun _ => .error "unused" }

/-- A server whose attachment GET fails. -/
def wServerErr : Server :=
  { accessResource := fun _ _ path _ =>
      if path == "7" then .ok "SECRET-JSON"
      else .error (.errorf "api: 500 internal server error"),
    unmarshalSecret := fun d =>
      if d == "SECRET-JSON" then .ok wSecret else .error "invalid character",
    unmarshalSearch := fun _ => .error "unused" }

/-- A search record with the given ID. -/
def wRecord (i : Int) : SearchRecord :=
  { ID := i, Name := "db-creds", SecretTemplateID := 3, SecretTemplateName := "t" }

/-- A server whose name search yields two records. -/
def wServerMulti : Server :=
  { accessResource := fun _ _ _ _ => .ok "SEARCH-JSON",
    unmarshalSecret := fun _ => .error "unused",
    unmarshalSearch := fun d =>
      if d == "SEARCH-JSON" then .ok ⟨[wRecord 10, wRecord 11]⟩
      else .error "invalid" }

/-- A server whose name search yields exactly one record. -/
def wServerSingle : Server :=
  { accessResource := fun _ _ _ _ => .ok "SEARCH-JSON",
    unmarshalSecret := fun _ => .error "unused",
    unmarshalSearch := fun d =>
      if d == "SEARCH-JSON" then .ok ⟨[wRecord 10]⟩ else .error "invalid" }

/-- A server whose name search yields no records. -/
def wServerNone : Server :=
  { accessResource := fun _ _ _ _ => .ok "SEARCH-JSON",
    unmarshalSecret := fun _ => .error "unused",
    unmarshalSearch := fun d =>
      if d == "SEARCH-JSON" then .ok ⟨[]⟩ else .error "invalid" }

/-- A server whose primary GET answers bytes that do not decode. -/
def wServerBadJson : Server :=
  { accessResource := fun _ _ _ _ => .ok "not json",
    unmarshalSecret := fun _ => .error "unexpected end of JSON input",
    unmarshalSearch := fun _ => .error "unused" }

/-- A server whose primary GET itself fails. -/
def wServerDown : Server :=
  { accessResource := fun _ _ _ _ => .error (.errorf "connection refused"),
    unmarshalSecret := fun _ => .error "unused",
    unmarshalSearch := fun _ => .error "unused" }

/-- First field matching by FieldName "x". -/
def wCollideA : SecretField :=
  { ItemID := 1, FieldID := 1, FileAttachmentID := 0, FieldDescription := "",
    FieldName := "x", Filename := "", ItemValue := "first", Slug := "x-slug",
    IsFile := false, IsNotes := false, IsPassword := false }

/-- Later field matching by Slug "x". -/
def wCollideB : SecretField :=
  { ItemID := 2, FieldID := 2, FileAttachmentID := 0, FieldDescription := "",
    FieldName := "other", Filename := "", ItemValue := "second", Slug := "x",
    IsFile := false, IsNotes := false, IsPassword := false }

/-- A secret where FieldName "x" and Slug "x" collide across fields. -/
def wCollideSecret : Secret :=
  { Name := "c", FolderID := 0, ID := 1, SiteID := 0, SecretTemplateID := 0,
    SecretPolicyID := 0, Active := true, CheckedOut := false,
    CheckOutEnabled := false, Fields := [wCollideA, wCollideB] }

/-! ### Witnesses -/

/-- Witness for C1: fetching secret 7 from `wServerOk` succeeds and the
attachment field's value equals the accessor's bytes for
`7/fields/notes-file`. -/
theorem fetchSecret_attachment_substitution_total_witness :
    wServerOk.Secret 7 = .ok wResult ∧
    wServerOk.accessResource "GET" resource
        (toString (7 : Int) ++ "/fields/" ++ (wResult.Fields.get ⟨1, by decide⟩).Slug) none
      = .ok (wResult.Fields.get ⟨1, by decide⟩).ItemValue :=
  ⟨by rfl,
   fetchSecret_attachment_substitution_total wServerOk 7 wResult (by rfl) 1 (by decide)
     (by decide)⟩

/-- Witness for C2: the attachment fetch for field 1 of secret 7 fails on
`wServerErr`, and the whole fetch returns exactly that error. -/
theorem fetchSecret_attachment_error_propagates_witness :
    wServerErr.accessResource "GET" resource (toString (7 : Int)) none = .ok "SECRET-JSON" ∧
    wServerErr.unmarshalSecret "SECRET-JSON" = .ok wSecret ∧
    (wSecret.Fields.get ⟨1, by decide⟩).FileAttachmentID ≠ 0 ∧
    wServerErr.accessResource "GET" resource
        (toString (7 : Int) ++ "/fields/" ++ (wSecret.Fields.get ⟨1, by decide⟩).Slug) none
      = .error (.errorf "api: 500 internal server error") ∧
    wServerErr.Secret 7 = .error (.errorf "api: 500 internal server error") :=
  ⟨by rfl, by rfl, by decide, by rfl,
   fetchSecret_attachment_error_propagates wServerErr 7 "SECRET-JSON" wSecret 1 (by decide)
     (.errorf "api: 500 internal server error") (by rfl) (by rfl) (by decide) (by rfl)
     (fun j hj hji hjatt => by
       have hj0 : j = 0 := by omega
       subst hj0
       exact absurd rfl hjatt)⟩

/-- Witness for C3: searching "db-creds" on `wServerMulti` yields records
with IDs 10 and 11 and the distinguished ambiguous-name error. -/
theorem resolveID_multiple_matches_witness :
    wServerMulti.accessResource "GET" resource ("?" ++ searchFilter "db-creds") none
      = .ok "SEARCH-JSON" ∧
    wServerMulti.unmarshalSearch "SEARCH-JSON" = .ok ⟨[wRecord 10, wRecord 11]⟩ ∧
    wServerMulti.SecretNameToID "db-creds"
      = .error (.multipleSecretsFound [10, 11] "db-creds") :=
  ⟨by rfl, by rfl,
   resolveID_multiple_matches wServerMulti "db-creds" "SEARCH-JSON"
     ⟨[wRecord 10, wRecord 11]⟩ (by rfl) (by rfl) (by decide)⟩

/-- Witness for C4: searching "db-creds" on `wServerSingle` yields the
single record's ID 10, with no error. -/
theorem resolveID_single_match_witness :
    wServerSingle.accessResource "GET" resource ("?" ++ searchFilter "db-creds") none
      = .ok "SEARCH-JSON" ∧
    wServerSingle.unmarshalSearch "SEARCH-JSON" = .ok ⟨[wRecord 10]⟩ ∧
    wServerSingle.SecretNameToID "db-creds" = .ok 10 :=
  ⟨by rfl, by rfl,
   resolveID_single_match wServerSingle "db-creds" "SEARCH-JSON"
     ⟨[wRecord 10]⟩ (wRecord 10) (by rfl) (by rfl) (by rfl)⟩

/-- Witness for C5: searching "db-creds" on `wServerNone` yields the plain
not-found error, which is not the ambiguous-name error. -/
theorem resolveID_no_match_witness :
    wServerNone.unmarshalSearch "SEARCH-JSON" = .ok ⟨[]⟩ ∧
    (wServerNone.SecretNameToID "db-creds"
        = .error (.errorf "no secrets found with name 'db-creds'") ∧
      ∀ (ids : List Int) (nm : String),
        wServerNone.SecretNameToID "db-creds" ≠ .error (.multipleSecretsFound ids nm)) :=
  ⟨by rfl,
   resolveID_no_match wServerNone "db-creds" "SEARCH-JSON" ⟨[]⟩ (by rfl) (by rfl) (by rfl)⟩

/-- Witness for C6: on a secret whose first field matches by FieldName
and a later field matches by Slug, the first match wins; an unknown name
yields the empty negative result. -/
theorem secretField_first_match_wins_witness :
    wCollideSecret.Field "x" = ("first", true) ∧
    wCollideSecret.Field "nope" = ("", false) :=
  ⟨(secretField_first_match_wins wCollideSecret "x").1 0 (by decide)
      (fun j hj hj0 => absurd hj0 (by omega)) (Or.inl (by rfl)),
   (secretField_first_match_wins wCollideSecret "nope").2 (by decide)⟩

/-- Witness for C7: on `wServerOk` the zero-attachment password field
comes back untouched. -/
theorem fetchSecret_frame_no_attachment_witness :
    wServerOk.accessResource "GET" resource (toString (7 : Int)) none = .ok "SECRET-JSON" ∧
    wServerOk.unmarshalSecret "SECRET-JSON" = .ok wSecret ∧
    wServerOk.Secret 7 = .ok wResult ∧
    wResult.Fields.get ⟨0, by decide⟩ = wSecret.Fields.get ⟨0, by decide⟩ :=
  ⟨by rfl, by rfl, by rfl,
   (fetchSecret_frame_no_attachment wServerOk 7 "SECRET-JSON" wSecret wResult
      (by rfl) (by rfl) (by rfl)).1 0 (by decide) (by decide) (by decide)⟩

/-- Witness for C8: a decode failure surfaces the descriptive error for
secret 9, and a transport failure is returned unchanged. -/
theorem fetchSecret_primary_errors_witness :
    wServerBadJson.accessResource "GET" resource (toString (9 : Int)) none = .ok "not json" ∧
    wServerBadJson.unmarshalSecret "not json" = .error "unexpected end of JSON input" ∧
    wServerBadJson.Secret 9
      = .error (.errorf "parsing response from /secrets/9: unexpected end of JSON input") ∧
    wServerDown.accessResource "GET" resource (toString (9 : Int)) none
      = .error (.errorf "connection refused") ∧
    wServerDown.Secret 9 = .error (.errorf "connection refused") :=
  ⟨by rfl, by rfl,
   (fetchSecret_primary_errors wServerBadJson 9).1 "not json"
     "unexpected end of JSON input" (by rfl) (by rfl),
   by rfl,
   (fetchSecret_primary_errors wServerDown 9).2 (.errorf "connection refused") (by rfl)⟩

/-- Witness for C9: the query string for "db-creds" is the three encoded
filter parameters, and resolution agrees for servers agreeing on that
one GET. -/
theorem resolveID_query_string_witness :
    (∀ d : Bytes, wServerMulti.unmarshalSearch d = wServerMulti.unmarshalSearch d) ∧
    wServerMulti.accessResource "GET" resource ("?" ++ searchFilter "db-creds") none
      = wServerMulti.accessResource "GET" resource ("?" ++ searchFilter "db-creds") none ∧
    searchFilter "db-creds"
      = "filter.doNotCalculateTotal=true&filter.searchFieldSlug=name&filter.searchText=db-creds" ∧
    wServerMulti.SecretNameToID "db-creds" = wServerMulti.SecretNameToID "db-creds" :=
  ⟨fun _ => rfl, rfl,
   (resolveID_query_string "db-creds").1,
   (resolveID_query_string "db-creds").2 wServerMulti wServerMulti (fun _ => rfl) rfl⟩
